import Mathlib

/-!
# Verification of the WebSocket protocol test-harness scripts

This file is a shallow embedding of the three Python client scripts
(`test-create-particle.py`, `test-create-particle-debug.py`,
`test-ws-simple.py`) together with the components of the harness design
that exist only in the design document (Message Codec, Scenario Runner).

Modelling conventions:
* JSON values are the inductive `Json` below; Python `dict`s are
  association lists with first-key-wins lookup (Python dict literals in
  the scripts have no duplicate keys, so this is exact).
* `json.loads` belongs to the Python standard library, not to this
  repository; an incoming wire frame is therefore modelled abstractly as
  `Frame`: either structurally invalid text (on which `json.loads`
  raises) or the `Json` value it parses to.
* Python exceptions are modelled with `Except PyErr`.
* Wall-clock time in the listener script is modelled in whole seconds
  (the script itself truncates with `timedelta.seconds`).
-/

/-- A JSON value: the structured data the scripts exchange.  Numbers are
modelled as integers, which covers every number the scripts build
(coordinates `5` / `-5`) and every field the claims inspect. -/
inductive Json where
  | null
  | bool (b : Bool)
  | num (n : Int)
  | str (s : String)
  | arr (elems : List Json)
  | obj (fields : List (String × Json))

/-- Python exceptions that the scripts can raise while handling a frame. -/
inductive PyErr where
  | keyError (k : String)
  | typeError
  | valueError
  | attributeError
  | jsonDecodeError
deriving DecidableEq, Repr

/-- An incoming wire frame.  `json.loads` is Python-stdlib code, external
to this repository, so a frame is modelled as either text that is not
valid JSON (`loads` raises `json.JSONDecodeError`) or the `Json` value it
parses to. -/
inductive Frame where
  | invalid (raw : String)
  | parsed (j : Json)

/-- Python `x == "s"` for a JSON value `x` and a string literal, as in
the scripts' `data['type'] == 'error'` tests: true exactly when `x` is
that string (comparison with a non-string value is simply `False`,
never an error). -/
def isStr (j : Json) (s : String) : Bool :=
  match j with
  | .str t => t = s
  | _ => false

/-- First-key-wins lookup in a JSON object, matching Python dict lookup
for the duplicate-free dicts the scripts build. -/
def jlookup : List (String × Json) → String → Option Json
  | [], _ => none
  | (k, v) :: rest, key => if k = key then some v else jlookup rest key

/-- `json.loads(response)`: raises `JSONDecodeError` on invalid text,
otherwise returns the parsed value. -/
def loads : Frame → Except PyErr Json
  | .invalid _ => .error .jsonDecodeError
  | .parsed j => .ok j

/-- Python subscripting `d[k]` with a string key: `KeyError` when the key
is absent from a dict, `TypeError` when the value is not a dict. -/
def getItem (j : Json) (k : String) : Except PyErr Json :=
  match j with
  | .obj fields =>
    match jlookup fields k with
    | some v => .ok v
    | none => .error (.keyError k)
  | _ => .error .typeError

/-- Python `d.get(k, default)`: total on dicts; on any non-dict value the
attribute lookup `.get` raises `AttributeError`. -/
def dictGet (j : Json) (k : String) (default : Json) : Except PyErr Json :=
  match j with
  | .obj fields => .ok ((jlookup fields k).getD default)
  | _ => .error .attributeError

/-- Python `len(x)`: defined for lists, strings and dicts; `TypeError`
otherwise. -/
def pyLen : Json → Except PyErr Nat
  | .arr xs => .ok xs.length
  | .str s => .ok s.length
  | .obj fields => .ok fields.length
  | _ => .error .typeError

/-- Python `format(x, ".3f")` as used in the listener's prints: succeeds
on numbers (and bools, which are ints in Python), raises `ValueError` on
strings and `TypeError` on the remaining types. -/
def fmtF3 : Json → Except PyErr Unit
  | .num _ => .ok ()
  | .bool _ => .ok ()
  | .str _ => .error .valueError
  | _ => .error .typeError

/-- Modelled from the spec: the wire message unit of the Message Codec,
`\x7b type: string, payload: optional structured value \x7d`.  The codec
exists only as inlined `json.dumps` / `json.loads` calls in the scripts;
this is the reusable component the design document specifies. -/
structure Envelope where
  type : String
  payload : Option Json

/-- Modelled from the spec: the failures of the Message Codec's `decode`. -/
inductive DecodeError where
  | invalidJson (raw : String)
  | notAnObject
  | missingTypeField
  | typeNotString
deriving DecidableEq, Repr

/-- Modelled from the spec: `encode(Envelope) -> wire bytes`, a
deterministic JSON-compatible serialization with fixed key names `type`
and `payload`; an absent optional payload is simply not serialized. -/
def encode (e : Envelope) : Frame :=
  Frame.parsed (Json.obj (("type", Json.str e.type) ::
    (match e.payload with
     | some p => [("payload", p)]
     | none => [])))

/-- Modelled from the spec: `decode(wire bytes) -> Envelope`, failing
with a `DecodeError` if the input is not valid structured data or lacks
a `type` field; no defaults are ever substituted. -/
def decode (f : Frame) : Except DecodeError Envelope :=
  match f with
  | .invalid raw => .error (.invalidJson raw)
  | .parsed (Json.obj fields) =>
    match jlookup fields "type" with
    | some (Json.str t) => .ok ⟨t, jlookup fields "payload"⟩
    | some _ => .error .typeNotString
    | none => .error .missingTypeField
  | .parsed _ => .error .notAnObject

/-! ## The two-creation scenario: `test-create-particle.py`

The script sends `getSnapshot`, reads one reply with a bare
`await websocket.recv()` (no timeout), computes
`len(data['payload']['particles'])`, then twice repeats: send
`createParticle`, `asyncio.sleep(0.5)`, send `getSnapshot`, bare `recv`,
count particles, and compare the count against the immediately preceding
one.  The run is modelled as a function of the three reply frames; it
returns the trace of I/O events the script performed together with either
the pair of check verdicts (the `✓`/`✗` prints at lines 42-45 and 68-71)
or the uncaught Python exception that terminated the run. -/

/-- An observable I/O action of `test-create-particle.py`:
`sent m` is `await websocket.send(json.dumps(m))`, `recvUnbounded` is the
bare `await websocket.recv()` (no timeout of any kind: it suspends until
a frame arrives or the connection closes), `slept` is
`await asyncio.sleep(0.5)`. -/
inductive Event where
  | sent (m : Json)
  | recvUnbounded
  | slept

/-- The literal `\x7b"type": "getSnapshot"\x7d` message (lines 15, 36, 62). -/
def getSnapshotMsg : Json := Json.obj [("type", Json.str "getSnapshot")]

/-- The `createParticle` message for a proton at `(5, 5, 5)` (lines 23-29). -/
def protonCreateMsg : Json :=
  Json.obj [("type", Json.str "createParticle"),
            ("payload", Json.obj [("type", Json.str "proton"),
                                  ("position", Json.obj [("x", Json.num 5),
                                                         ("y", Json.num 5),
                                                         ("z", Json.num 5)])])]

/-- The `createParticle` message for a neutron at `(-5, -5, -5)` (lines 49-55). -/
def neutronCreateMsg : Json :=
  Json.obj [("type", Json.str "createParticle"),
            ("payload", Json.obj [("type", Json.str "neutron"),
                                  ("position", Json.obj [("x", Json.num (-5)),
                                                         ("y", Json.num (-5)),
                                                         ("z", Json.num (-5))])])]

/-- `len(data['payload']['particles'])` (lines 18, 39, 65): subscripting
may raise `KeyError`/`TypeError`; note that no branch ever consults
`data['type']`. -/
def particleCount (data : Json) : Except PyErr Nat :=
  match getItem data "payload" with
  | .error e => .error e
  | .ok payload =>
    match getItem payload "particles" with
    | .error e => .error e
    | .ok particles => pyLen particles

/-- `data = json.loads(response)` followed by
`len(data['payload']['particles'])`: the whole handling of one
`getSnapshot` reply. -/
def countOfResponse (f : Frame) : Except PyErr Nat :=
  match loads f with
  | .error e => .error e
  | .ok data => particleCount data

/-- The body of `test_create_particle` in `test-create-particle.py`,
as a function of the three reply frames `r0`, `r1`, `r2` delivered by the
three bare `recv` calls.  Returns the I/O trace together with either the
two verdicts (`new_count > initial_count`, `final_count > new_count`) or
the uncaught exception.  Note the straight-line control flow of the
source: the neutron steps are executed no matter how the first check came
out. -/
def test_create_particle (r0 r1 r2 : Frame) :
    List Event × Except PyErr (Bool × Bool) :=
  let t0 := [Event.sent getSnapshotMsg, Event.recvUnbounded]
  match countOfResponse r0 with
  | .error e => (t0, .error e)
  | .ok initialCount =>
    let t1 := t0 ++ [Event.sent protonCreateMsg, Event.slept,
                     Event.sent getSnapshotMsg, Event.recvUnbounded]
    match countOfResponse r1 with
    | .error e => (t1, .error e)
    | .ok newCount =>
      let firstOk := decide (newCount > initialCount)
      let t2 := t1 ++ [Event.sent neutronCreateMsg, Event.slept,
                       Event.sent getSnapshotMsg, Event.recvUnbounded]
      match countOfResponse r2 with
      | .error e => (t2, .error e)
      | .ok finalCount =>
        let secondOk := decide (finalCount > newCount)
        (t2, .ok (firstOk, secondOk))

/-- A well-formed `snapshot` reply carrying `n` particles, used as a
concrete test input. -/
def snapResp (n : Nat) : Frame :=
  Frame.parsed (Json.obj [("type", Json.str "snapshot"),
                          ("payload", Json.obj [("particles",
                            Json.arr (List.replicate n Json.null))])])

/-! ## The debug scenario: `test-create-particle-debug.py`

The script sends one `createParticle` (a proton at `(5,5,5)`, the same
`protonCreateMsg` as above) and then drains responses:
`for i in range(5): response = await asyncio.wait_for(websocket.recv(),
timeout=1)`, classifying each reply by `data['type']`.  The whole loop is
wrapped in `try: ... except asyncio.TimeoutError: print("No more
messages")`, so the first timed-out attempt ends the drain; a closed
connection or a processing exception propagates uncaught. -/

/-- What one bounded receive attempt observes: a frame arrived within the
wait, the wait elapsed with no frame (`asyncio.TimeoutError`), or the
peer closed the connection (`ConnectionClosed` raised by `recv`). -/
inductive RecvOutcome where
  | msg (f : Frame)
  | timeout
  | closed

/-- How the drain loop of `test-create-particle-debug.py` ended. -/
inductive DebugEnd where
  | completedAll
  | noMoreMessages
  | connClosed
  | raised (e : PyErr)
deriving DecidableEq, Repr

/-- The `timeout=1` argument of `asyncio.wait_for` at line 30 of
`test-create-particle-debug.py`: every receive attempt of the drain loop
is bounded by a one-second wait. -/
def debugRecvTimeoutSeconds : Nat := 1

/-- The `range(5)` bound of the drain loop. -/
def debugMaxAttempts : Nat := 5

/-- The per-message body of the drain loop (lines 32-36): read
`data['type']`; for `error` read the optional message with `.get`
defaults; for `snapshot` compute `len(data['payload']['particles'])`;
print any other type generically. -/
def debugClassify (data : Json) : Except PyErr Unit := do
  let t ← getItem data "type"
  if isStr t "error" then do
    let payload ← dictGet data "payload" (Json.obj [])
    let _ ← dictGet payload "message" (Json.str "Unknown error")
    pure ()
  else if isStr t "snapshot" then do
    let _ ← particleCount data
    pure ()
  else
    pure ()

/-- `json.loads` plus classification for one drained response. -/
def processDebug (f : Frame) : Except PyErr Unit := do
  let data ← loads f
  debugClassify data

/-- The drain loop, recursing on the remaining iteration budget `r` with
`i` the attempt index and `processed` the number of responses examined
so far.  A timeout ends the loop via the `except asyncio.TimeoutError`
handler; a closed connection or processing exception ends it by an
uncaught exception. -/
def debugDrainAux (beh : Nat → RecvOutcome) : Nat → Nat → Nat → Nat × DebugEnd
  | _, 0, processed => (processed, .completedAll)
  | i, r + 1, processed =>
    match beh i with
    | .timeout => (processed, .noMoreMessages)
    | .closed => (processed, .connClosed)
    | .msg f =>
      match processDebug f with
      | .error e => (processed, .raised e)
      | .ok _ => debugDrainAux beh (i + 1) r (processed + 1)

/-- The response-drain phase of `test_create_particle` in
`test-create-particle-debug.py` (lines 28-38), as a function of what
each bounded receive attempt observes: the number of responses examined
and how the loop ended. -/
def test_create_particle_debug (beh : Nat → RecvOutcome) : Nat × DebugEnd :=
  debugDrainAux beh 0 debugMaxAttempts 0

/-! ## The passive listener: `test-ws-simple.py`

The script sends one `getSnapshot`, then loops
`while (datetime.now() - start_time).seconds < timeout:` with
`timeout = 10`, each iteration doing
`await asyncio.wait_for(websocket.recv(), timeout=1)`.  A timed-out
attempt prints a dot and continues (one second has elapsed); a received
message is counted right after `json.loads` succeeds and then classified
with `.get` defaults; any other exception (connection closed, invalid
JSON, classification error) is caught by the outer
`except Exception as e:` which prints the error — and skips the final
`print(f"Received N messages in T seconds")` summary line, which lives
inside the `try` block (lines 132-158). -/

/-- What one listener receive attempt observes.  For a delivered frame,
`cost` is the whole number of seconds the attempt consumed (0 or 1 at
the script's one-second granularity; a timed-out attempt always costs
one second). -/
inductive WsOutcome where
  | msg (f : Frame) (cost : Nat)
  | timeout
  | closed

/-- The exception that ended a listener run early. -/
inductive WsFailure where
  | connClosed
  | raised (e : PyErr)
deriving DecidableEq, Repr

/-- What `test-ws-simple.py` reports at the end of a run: the summary
line `Received N messages in T seconds` (with the observed elapsed whole
seconds at loop exit), or the `Error: ...` print of the outer exception
handler — in which case no summary line is printed at all. -/
inductive WsReport where
  | summary (totalMessages : Nat) (durationObserved : Nat)
  | errored (e : WsFailure)
deriving DecidableEq, Repr

/-- The `timeout = 10` listen duration (line 133). -/
def wsListenSeconds : Nat := 10

/-- The `timeout=1` argument of `asyncio.wait_for` at line 140: every
receive attempt of the listener is bounded by a one-second wait. -/
def wsRecvTimeoutSeconds : Nat := 1

/-- Classification of one received message (lines 144-153): all field
access goes through `.get` with defaults; the snapshot branch then takes
`len(particles)` and formats `simulationTime` and `totalEnergy` with
`:.3f`. -/
def wsClassify (data : Json) : Except PyErr Unit := do
  let t ← dictGet data "type" Json.null
  if isStr t "snapshot" then do
    let payload ← dictGet data "payload" (Json.obj [])
    let particles ← dictGet payload "particles" (Json.arr [])
    let metrics ← dictGet payload "metrics" (Json.obj [])
    let _ ← pyLen particles
    let simulationTime ← dictGet payload "simulationTime" (Json.num 0)
    let _ ← fmtF3 simulationTime
    let totalEnergy ← dictGet metrics "totalEnergy" (Json.num 0)
    let _ ← fmtF3 totalEnergy
    pure ()
  else
    pure ()

/-- The listener loop.  `fuel` is an iteration bound used only to make
the recursion structural: `none` means the loop was still running after
`fuel` receive attempts.  `i` is the attempt index, `elapsed` the whole
seconds since `start_time`, `count` the `message_count` accumulator. -/
def wsLoop (beh : Nat → WsOutcome) : Nat → Nat → Nat → Nat → Option WsReport
  | 0, _, _, _ => none
  | fuel + 1, i, elapsed, count =>
    if elapsed < wsListenSeconds then
      match beh i with
      | .timeout => wsLoop beh fuel (i + 1) (elapsed + wsRecvTimeoutSeconds) count
      | .closed => some (.errored .connClosed)
      | .msg f cost =>
        match loads f with
        | .error e => some (.errored (.raised e))
        | .ok data =>
          match wsClassify data with
          | .error e => some (.errored (.raised e))
          | .ok _ => wsLoop beh fuel (i + 1) (elapsed + cost) (count + 1)
    else
      some (.summary count elapsed)

/-- The listen phase of `test_websocket` in `test-ws-simple.py`
(lines 131-161), as a function of what each receive attempt observes. -/
def test_websocket (fuel : Nat) (beh : Nat → WsOutcome) : Option WsReport :=
  wsLoop beh fuel 0 0 0

/-! ## The Scenario Runner of the design document

No Scenario Runner exists in the source tree — the scripts are
straight-line procedures.  The runner below is the component the design
document specifies; the outcome of executing each individual step
depends on the external server and is abstracted as an oracle from step
index to `StepOutcome`. -/

/-- Modelled from the spec: the step kinds of the Scenario Runner
(`SendCommand | ExpectSnapshotDelta | Wait`); the snapshot-delta
predicate ranges over the snapshot payloads observed before and after. -/
inductive Step where
  | SendCommand (e : Envelope)
  | ExpectSnapshotDelta (pred : Json → Json → Bool)
  | Wait (d : Nat)

/-- Modelled from the spec: what executing one step yields (a send
succeeds or fails, an expected snapshot arrives and satisfies the
predicate or not, a wait always succeeds). -/
inductive StepOutcome where
  | ok
  | fail (reason : String)

/-- Modelled from the spec: `ScenarioResult` —
`\x7b passed: bool, failedStepIndex: optional int, message: string \x7d`. -/
structure ScenarioResult where
  passed : Bool
  failedStepIndex : Option Nat
  message : String
deriving DecidableEq, Repr

/-- Modelled from the spec: the Scenario Runner.  It walks the step
list in order starting at index `b`, asking the oracle for each step's
outcome, and stops at the first `fail`, reporting that step's index;
the second component is the list of indices of the steps that were
actually executed. -/
def runScenario (outcome : Nat → StepOutcome) :
    List Step → Nat → ScenarioResult × List Nat
  | [], _ => (⟨true, none, "Passed"⟩, [])
  | _ :: rest, b =>
    match outcome b with
    | .fail r => (⟨false, some b, r⟩, [b])
    | .ok =>
      let next := runScenario outcome rest (b + 1)
      (next.1, b :: next.2)

/-! ## Named concrete inputs for the closed statements below -/

/-- A server that keeps the connection open but never sends: every
listener receive attempt times out. -/
def silentBeh : Nat → WsOutcome := fun _ => WsOutcome.timeout

/-- A server that has closed the connection: every receive attempt
raises `ConnectionClosed`. -/
def allClosedBeh : Nat → WsOutcome := fun _ => WsOutcome.closed

/-- A server that immediately delivers one frame that is not valid JSON
and is silent afterwards. -/
def malformedFirstBeh : Nat → WsOutcome :=
  fun i => if i = 0 then WsOutcome.msg (Frame.invalid "not json") 0
           else WsOutcome.timeout

/-- A server that delivers one well-formed snapshot after one second and
is silent afterwards. -/
def oneMessageBeh : Nat → WsOutcome :=
  fun i => if i = 0 then WsOutcome.msg (snapResp 3) 1 else WsOutcome.timeout

/-- A drain-loop server that delivers two well-formed snapshots and then
stays silent. -/
def twoThenSilentBeh : Nat → RecvOutcome :=
  fun i => if i < 2 then RecvOutcome.msg (snapResp 6) else RecvOutcome.timeout

/-- An `error` reply whose payload is `\x7b message \x7d`, as the server
sends on a rejected command. -/
def errorResp : Frame :=
  Frame.parsed (Json.obj [("type", Json.str "error"),
                          ("payload", Json.obj [("message",
                            Json.str "invalid species")])])

/-- The property `debugStepOk beh n` says receive attempt `n` of the
drain loop delivers a frame whose processing succeeds, so the loop moves
on to attempt `n + 1`. -/
def debugStepOk (beh : Nat → RecvOutcome) (n : Nat) : Prop :=
  ∃ f, beh n = RecvOutcome.msg f ∧ processDebug f = Except.ok ()

/-- A drain-loop server that keeps the connection open and never sends. -/
def debugSilentBeh : Nat → RecvOutcome := fun _ => RecvOutcome.timeout

/-- A drain-loop server whose connection is closed: every receive raises
`ConnectionClosed`. -/
def debugClosedBeh : Nat → RecvOutcome := fun _ => RecvOutcome.closed

/-- The `[A passes, B fails, C]` outcome oracle of the spec's worked
scenario: step 1 fails its assertion, every other step succeeds. -/
def abFailOutcome : Nat → StepOutcome :=
  fun j => if j = 1 then StepOutcome.fail "assertion failed" else StepOutcome.ok

/-! ## Helper lemmas -/

/-- The Scenario Runner, started at base index `b`, stops at the first
failing step: if step `b + i` fails and all earlier steps succeed, the
run reports `Failed` at index `b + i` and the executed steps are exactly
`b, b+1, ..., b+i`. -/
theorem runScenario_stops_at_first_fail (outcome : Nat → StepOutcome) :
    ∀ (i : Nat) (steps : List Step) (b : Nat) (r : String),
      outcome (b + i) = StepOutcome.fail r →
      (∀ j, j < i → outcome (b + j) = StepOutcome.ok) →
      i < steps.length →
      runScenario outcome steps b = (⟨false, some (b + i), r⟩, List.range' b (i + 1)) := by
  intro i
  induction i with
  | zero =>
    intro steps b r hfail _ hlen
    cases steps with
    | nil => simp at hlen
    | cons s rest =>
      rw [Nat.add_zero] at hfail
      simp [runScenario, hfail, List.range'_succ, List.range']
  | succ k ih =>
    intro steps b r hfail hok hlen
    cases steps with
    | nil => simp at hlen
    | cons s rest =>
      have h0 : outcome b = StepOutcome.ok := by
        have h := hok 0 (Nat.succ_pos k)
        rwa [Nat.add_zero] at h
      have hf2 : outcome ((b + 1) + k) = StepOutcome.fail r := by
        rw [show (b + 1) + k = b + (k + 1) by omega]
        exact hfail
      have hok2 : ∀ j, j < k → outcome ((b + 1) + j) = StepOutcome.ok := by
        intro j hj
        rw [show (b + 1) + j = b + (j + 1) by omega]
        exact hok (j + 1) (by omega)
      have hlen2 : k < rest.length := by
        have := hlen
        simp at this
        omega
      have hrec := ih rest (b + 1) r hf2 hok2 hlen2
      simp [runScenario, h0, hrec, List.range'_succ]
      omega

/-- The drain loop examines at most `acc + r` responses when started
with `r` remaining iterations and `acc` already examined. -/
theorem debugDrainAux_le (beh : Nat → RecvOutcome) :
    ∀ (r i acc : Nat), (debugDrainAux beh i r acc).1 ≤ acc + r := by
  intro r
  induction r with
  | zero => intro i acc; simp [debugDrainAux]
  | succ r ih =>
    intro i acc
    cases hb : beh i with
    | timeout => simp [debugDrainAux, hb]
    | closed => simp [debugDrainAux, hb]
    | msg f =>
      cases hp : processDebug f with
      | error e => simp [debugDrainAux, hb, hp]
      | ok u =>
        have h := ih (i + 1) (acc + 1)
        simp [debugDrainAux, hb, hp]
        omega

/-- If the first `k` attempts of the drain loop deliver messages that
process cleanly and attempt `k` times out (with `k` inside the remaining
budget `r`), the loop ends at attempt `k` through the `TimeoutError`
handler, having examined exactly the `k` earlier responses. -/
theorem debugDrainAux_first_timeout (beh : Nat → RecvOutcome) :
    ∀ (k r i acc : Nat), k < r →
      (∀ j, j < k → debugStepOk beh (i + j)) →
      beh (i + k) = RecvOutcome.timeout →
      debugDrainAux beh i r acc = (acc + k, DebugEnd.noMoreMessages) := by
  intro k
  induction k with
  | zero =>
    intro r i acc hk _ hto
    cases r with
    | zero => omega
    | succ r =>
      rw [Nat.add_zero] at hto
      simp [debugDrainAux, hto]
  | succ k ih =>
    intro r i acc hk hok hto
    cases r with
    | zero => omega
    | succ r =>
      obtain ⟨f, hbf, hpf⟩ := by
        have h := hok 0 (Nat.succ_pos k)
        rwa [Nat.add_zero] at h
      have hok2 : ∀ j, j < k → debugStepOk beh ((i + 1) + j) := by
        intro j hj
        have h := hok (j + 1) (by omega)
        rwa [show i + (j + 1) = (i + 1) + j by omega] at h
      have hto2 : beh ((i + 1) + k) = RecvOutcome.timeout := by
        rwa [show i + (k + 1) = (i + 1) + k by omega] at hto
      have hrec := ih r (i + 1) (acc + 1) (by omega) hok2 hto2
      simp [debugDrainAux, hbf, hpf, hrec]
      omega

/-! ## The claims -/

/-- C3: for every valid Envelope `e`, decoding the wire frame produced
by encoding `e` yields `e` again. -/
theorem c3_roundtrip (e : Envelope) : decode (encode e) = Except.ok e := by
  obtain ⟨t, p⟩ := e
  cases p <;> rfl

/-- C5: `decode` fails with a `DecodeError` on any frame that is not
valid structured data or whose object lacks a `type` field; and a frame
is accepted as an Envelope only when a string `type` field is really
present — never with a defaulted or absent type. -/
theorem c5_decode_rejects_malformed :
    (∀ raw, decode (Frame.invalid raw) = Except.error (DecodeError.invalidJson raw))
    ∧ (∀ fields, jlookup fields "type" = none →
         decode (Frame.parsed (Json.obj fields)) = Except.error DecodeError.missingTypeField)
    ∧ (∀ f e, decode f = Except.ok e →
         ∃ fields, f = Frame.parsed (Json.obj fields)
           ∧ jlookup fields "type" = some (Json.str e.type)) := by
  refine ⟨fun raw => rfl, fun fields h => by simp [decode, h], fun f e h => ?_⟩
  cases f with
  | invalid raw => exact Except.noConfusion h
  | parsed j =>
    cases j with
    | obj fields =>
      refine ⟨fields, rfl, ?_⟩
      revert h
      simp only [decode]
      cases hl : jlookup fields "type" with
      | none => exact fun h => Except.noConfusion h
      | some v =>
        cases v with
        | str t =>
          intro h
          injection h with h2
          rw [← h2]
        | null => exact fun h => Except.noConfusion h
        | bool b => exact fun h => Except.noConfusion h
        | num n => exact fun h => Except.noConfusion h
        | arr xs => exact fun h => Except.noConfusion h
        | obj fs => exact fun h => Except.noConfusion h
    | null => exact Except.noConfusion h
    | bool b => exact Except.noConfusion h
    | num n => exact Except.noConfusion h
    | str s => exact Except.noConfusion h
    | arr xs => exact Except.noConfusion h

/-- C5 witness: a frame carrying an object with no `type` field is
rejected with `missingTypeField`. -/
theorem c5_witness :
    decode (Frame.parsed (Json.obj [("payload", Json.num 7)])) =
      Except.error DecodeError.missingTypeField :=
  c5_decode_rejects_malformed.2.1 [("payload", Json.num 7)] rfl

/-- C9: the two-creation script treats every `getSnapshot` reply as a
snapshot.  First, `len(data['payload']['particles'])` never consults the
`type` discriminator (prepending any `type` binding leaves it
unchanged); second, when the first reply is an Envelope whose payload
lacks a `particles` field — such as an `error` reply with payload
`\x7b message \x7d` — the run terminates with an uncaught Python
`KeyError`, not with a structured step failure. -/
theorem c9_reply_treated_as_snapshot :
    (∀ t fields, particleCount (Json.obj (("type", t) :: fields)) =
       particleCount (Json.obj fields))
    ∧ (∀ payloadFields r1 r2, jlookup payloadFields "particles" = none →
         (test_create_particle
            (Frame.parsed (Json.obj [("type", Json.str "error"),
                                     ("payload", Json.obj payloadFields)]))
            r1 r2).2 = Except.error (PyErr.keyError "particles")) := by
  refine ⟨fun t fields => rfl, ?_⟩
  intro payloadFields r1 r2 h
  have hgi : getItem (Json.obj payloadFields) "particles" =
      Except.error (PyErr.keyError "particles") := by
    simp [getItem, h]
  have hc : countOfResponse
      (Frame.parsed (Json.obj [("type", Json.str "error"),
                               ("payload", Json.obj payloadFields)])) =
      Except.error (PyErr.keyError "particles") := by
    show (match getItem (Json.obj payloadFields) "particles" with
          | .error e => (Except.error e : Except PyErr Nat)
          | .ok particles => pyLen particles) =
      Except.error (PyErr.keyError "particles")
    rw [hgi]
  simp [test_create_particle, hc]

/-- C9 witness: an `error` reply with payload `\x7b message \x7d` to the
first `getSnapshot` makes the run die with `KeyError: particles`. -/
theorem c9_witness :
    (test_create_particle errorResp (snapResp 1) (snapResp 1)).2 =
      Except.error (PyErr.keyError "particles") :=
  c9_reply_treated_as_snapshot.2 [("message", Json.str "invalid species")]
    (snapResp 1) (snapResp 1) rfl

/-- C2: each of the two creation checks of the two-creation scenario is
judged against its own immediately-preceding baseline: with the three
snapshot replies carrying counts `n0`, `n1`, `n2`, the run ends normally
with verdicts `n1 > n0` (proton check against the initial snapshot) and
`n2 > n1` (neutron check against the count observed after the first
creation, not the original baseline). -/
theorem c2_checks_against_preceding_baseline
    (r0 r1 r2 : Frame) (n0 n1 n2 : Nat)
    (h0 : countOfResponse r0 = Except.ok n0)
    (h1 : countOfResponse r1 = Except.ok n1)
    (h2 : countOfResponse r2 = Except.ok n2) :
    (test_create_particle r0 r1 r2).2 =
      Except.ok (decide (n1 > n0), decide (n2 > n1)) := by
  simp [test_create_particle, h0, h1, h2]

/-- C2 witness: counts 1, 2, 3 make both checks pass. -/
theorem c2_witness :
    (test_create_particle (snapResp 1) (snapResp 2) (snapResp 3)).2 =
      Except.ok (true, true) :=
  c2_checks_against_preceding_baseline (snapResp 1) (snapResp 2) (snapResp 3)
    1 2 3 rfl rfl rfl

/-- C1 counterexample: with snapshot replies carrying counts 2, 2, 3 the
first particle-count check fails (`new_count > initial_count` is false,
first verdict `false`), yet the run still sends the neutron
`createParticle` command — the neutron-creation steps ARE executed after
the failed first check, contrary to the claim. -/
theorem c1_counterexample :
    (test_create_particle (snapResp 2) (snapResp 2) (snapResp 3)).2 =
      Except.ok (false, true)
    ∧ Event.sent neutronCreateMsg ∈
        (test_create_particle (snapResp 2) (snapResp 2) (snapResp 3)).1 :=
  ⟨rfl, List.Mem.tail _ (List.Mem.tail _ (List.Mem.tail _ (List.Mem.tail _
    (List.Mem.tail _ (List.Mem.tail _ (List.Mem.head _))))))⟩

/-- C1 (amended): the Scenario Runner of the design document stops at
the first failed step — if step `i` fails and every earlier step passes,
the run reports `Failed(stepIndex = i)` and the executed steps are
exactly `0, ..., i`, so no step after `i` executes.  The two-creation
script, however, is straight-line code that does not short-circuit: even
when its first particle-count check fails, the neutron-creation steps
still execute. -/
theorem c1_amended :
    (∀ (outcome : Nat → StepOutcome) (steps : List Step) (i : Nat) (r : String),
       outcome i = StepOutcome.fail r →
       (∀ j, j < i → outcome j = StepOutcome.ok) →
       i < steps.length →
       runScenario outcome steps 0 = (⟨false, some i, r⟩, List.range (i + 1)))
    ∧ ((test_create_particle (snapResp 4) (snapResp 4) (snapResp 4)).2 =
         Except.ok (false, false)
       ∧ Event.sent neutronCreateMsg ∈
           (test_create_particle (snapResp 4) (snapResp 4) (snapResp 4)).1) := by
  refine ⟨?_, rfl, ?_⟩
  · intro outcome steps i r hfail hok hlen
    have h := runScenario_stops_at_first_fail outcome i steps 0 r
      (by simpa using hfail) (by simpa using hok) hlen
    simpa [List.range_eq_range'] using h
  · exact List.Mem.tail _ (List.Mem.tail _ (List.Mem.tail _ (List.Mem.tail _
      (List.Mem.tail _ (List.Mem.tail _ (List.Mem.head _))))))

/-- C1 witness: the worked example of the spec — a three-step scenario
whose step 0 passes and whose step 1 fails — reports
`Failed(stepIndex = 1)` and executes only steps 0 and 1, never step 2. -/
theorem c1_amended_witness :
    runScenario abFailOutcome
      [Step.Wait 1, Step.ExpectSnapshotDelta (fun _ _ => false), Step.Wait 1] 0 =
      (⟨false, some 1, "assertion failed"⟩, List.range 2) :=
  c1_amended.1 abFailOutcome
    [Step.Wait 1, Step.ExpectSnapshotDelta (fun _ _ => false), Step.Wait 1]
    1 "assertion failed" rfl
    (fun j hj => by
      have hj0 : j = 0 := by omega
      subst hj0
      rfl)
    (by decide)

/-- C4 counterexample: the two-creation script performs a receive with
no bound at all — `Event.recvUnbounded` models the bare
`await websocket.recv()` of lines 16, 37 and 63, which suspends
indefinitely when the server sends nothing and keeps the connection
open.  So not every receive of every scenario passes through a bounded
wait. -/
theorem c4_counterexample :
    Event.recvUnbounded ∈
      (test_create_particle (snapResp 7) (snapResp 8) (snapResp 9)).1 :=
  List.Mem.tail _ (List.Mem.head _)

/-- C4 (amended): the receives of the debug script and of the passive
listener are bounded by a one-second `asyncio.wait_for`, but every run
of the two-creation script performs bare unbounded receives, which can
block indefinitely against a silent open connection. -/
theorem c4_amended :
    (∀ r0 r1 r2, Event.recvUnbounded ∈ (test_create_particle r0 r1 r2).1)
    ∧ debugRecvTimeoutSeconds = 1 ∧ wsRecvTimeoutSeconds = 1 := by
  refine ⟨?_, rfl, rfl⟩
  intro r0 r1 r2
  cases h0 : countOfResponse r0 <;> cases h1 : countOfResponse r1 <;>
    cases h2 : countOfResponse r2 <;>
      simp [test_create_particle, h0, h1, h2]

/-- C6: a receive attempt that times out is not fatal and is
distinguishable from a closed connection.  In the debug drain loop a
first-attempt timeout ends the loop through the `TimeoutError` handler
(`No more messages`) while a closed connection ends it with
`ConnectionClosed`, and these two ends are distinct; in the listener
loop timeouts are tolerated for the whole window (silent server ⇒
normal summary) while a closed connection aborts it with an error
report. -/
theorem c6_timeout_not_fatal_distinct_from_closed :
    test_create_particle_debug debugSilentBeh = (0, DebugEnd.noMoreMessages)
    ∧ test_create_particle_debug debugClosedBeh = (0, DebugEnd.connClosed)
    ∧ DebugEnd.noMoreMessages ≠ DebugEnd.connClosed
    ∧ test_websocket 11 silentBeh = some (WsReport.summary 0 wsListenSeconds)
    ∧ test_websocket 11 allClosedBeh = some (WsReport.errored WsFailure.connClosed) :=
  ⟨rfl, rfl, by decide, rfl, rfl⟩

/-- C7: a passive-listener run against a server that sends nothing
(every receive attempt times out) terminates — eleven receive attempts
of fuel suffice — with `message_count = 0` and an observed elapsed time
of exactly the configured ten seconds. -/
theorem c7_silent_listener (beh : Nat → WsOutcome)
    (hsilent : ∀ i, beh i = WsOutcome.timeout) :
    test_websocket 11 beh = some (WsReport.summary 0 wsListenSeconds) := by
  have hb : beh = silentBeh := funext hsilent
  subst hb
  rfl

/-- C7 witness: the all-timeout behaviour. -/
theorem c7_witness :
    test_websocket 11 silentBeh = some (WsReport.summary 0 wsListenSeconds) :=
  c7_silent_listener silentBeh (fun _ => rfl)

/-- C8 counterexample: against a closed connection the listener run of
`test-ws-simple.py` ends in the outer `except Exception` handler — the
result is the `Error: ...` report, not a `ListenSummary`: the summary
line (line 158) sits inside the `try` block and is skipped on early
termination. -/
theorem c8_counterexample :
    test_websocket 11 allClosedBeh = some (WsReport.errored WsFailure.connClosed) := rfl

/-- C8 (amended): a listener run reports the message-count summary only
on normal completion of the observation window; when the connection
closes or a malformed frame arrives, the loop ends early in the generic
exception handler, which reports the error and produces no summary at
all. -/
theorem c8_amended :
    test_websocket 11 silentBeh = some (WsReport.summary 0 wsListenSeconds)
    ∧ test_websocket 11 oneMessageBeh = some (WsReport.summary 1 wsListenSeconds)
    ∧ test_websocket 11 allClosedBeh = some (WsReport.errored WsFailure.connClosed)
    ∧ test_websocket 11 malformedFirstBeh =
        some (WsReport.errored (WsFailure.raised PyErr.jsonDecodeError)) :=
  ⟨rfl, rfl, rfl, rfl⟩

/-- C10: the debug drain loop examines at most five responses
(`range(5)`), each receive attempt is bounded by a one-second wait
(`timeout=1`), and the loop ends at the first attempt that times out:
if the first `k` attempts (`k < 5`) deliver cleanly processed messages
and attempt `k` times out, exactly `k` responses were examined and the
loop ended through the `TimeoutError` handler — no message after the
timed-out attempt is ever processed. -/
theorem c10_drain_loop_bounds :
    (∀ beh, (test_create_particle_debug beh).1 ≤ debugMaxAttempts)
    ∧ debugRecvTimeoutSeconds = 1
    ∧ (∀ beh k, k < debugMaxAttempts →
         (∀ j, j < k → debugStepOk beh j) →
         beh k = RecvOutcome.timeout →
         test_create_particle_debug beh = (k, DebugEnd.noMoreMessages)) := by
  refine ⟨?_, rfl, ?_⟩
  · intro beh
    simpa [test_create_particle_debug, debugMaxAttempts] using
      debugDrainAux_le beh 5 0 0
  · intro beh k hk hok hto
    have h := debugDrainAux_first_timeout beh k 5 0 0 hk
      (fun j hj => by simpa using hok j hj) (by simpa using hto)
    simpa [test_create_particle_debug, debugMaxAttempts] using h

/-- C10 witness: two clean snapshot messages followed by silence — the
drain loop examines exactly two responses and ends at the first
timed-out attempt. -/
theorem c10_witness :
    test_create_particle_debug twoThenSilentBeh = (2, DebugEnd.noMoreMessages) :=
  c10_drain_loop_bounds.2.2 twoThenSilentBeh 2 (by decide)
    (fun j hj => ⟨snapResp 6, by simp [twoThenSilentBeh, hj], rfl⟩)
    rfl
